import Mathlib

/-!
Shallow embedding of `substrafl_examples/get_started/plot_substrafl_torch_fedavg.py`.

The script is a documentation example that registers datasets, data samples, a
metric and a model with an external Substra platform and then submits a
federated-averaging experiment.  External SDK calls are modelled by oracles
(`Platform`, `PlatformE`); the external FedAvg strategy, experiment runner and
evaluation strategy, which are not part of this repository, are modelled from
the spec where a claim needs their behaviour.
-/

namespace FedAvgScript

/-- Python `dict` insertion semantics: `d[k] = v` replaces the value at the
first occurrence of `k`, keeping insertion order, and appends otherwise. -/
def dictInsert {α : Type} : List (String × α) → String → α → List (String × α)
  | [], k, v => [(k, v)]
  | (k0, v0) :: rest, k, v =>
      if k0 = k then (k, v) :: rest else (k0, v0) :: dictInsert rest k v

/-- Python `dict` lookup: value at the first matching key. -/
def dictLookup {α : Type} : List (String × α) → String → Option α
  | [], _ => none
  | (k0, v0) :: rest, k => if k0 = k then some v0 else dictLookup rest k

/-- Oracle for the external platform calls made by the script on its successful
run: `organization_info().organization_id` for each of the three clients, the
key returned by `add_dataset` for an organization, the key returned by
`add_data_sample` for an organization and a `test_only` flag, and the key
returned by `add_metric`. -/
structure Platform where
  orgId : Fin 3 → String
  datasetKey : String → String
  sampleKey : String → Bool → String
  metricKey : String

/-- `N_CLIENTS = 3`. -/
def N_CLIENTS : ℕ := 3

/-- `clients = {client_0.organization_info().organization_id: client_0, ...}`:
a Python dict literal, keyed by organization id, whose values are the three
clients (modelled by their index). -/
def clients (p : Platform) : List (String × Fin 3) :=
  dictInsert (dictInsert (dictInsert [] (p.orgId 0) (0 : Fin 3)) (p.orgId 1) 1) (p.orgId 2) 2

/-- `ORGS_ID = list(clients.keys())`. -/
def ORGS_ID (p : Platform) : List String :=
  (clients p).map Prod.fst

/-- `ALGO_ORG_ID = ORGS_ID[0]`: the algo provider is the first organization. -/
def ALGO_ORG_ID (p : Platform) : String :=
  (ORGS_ID p).headD ""

/-- `DATA_PROVIDER_ORGS_ID = ORGS_ID[1:]`: the data providers are the last
organizations. -/
def DATA_PROVIDER_ORGS_ID (p : Platform) : List String :=
  (ORGS_ID p).tail

/-- `substra.sdk.schemas.Permissions`, as used by the script. -/
structure Permissions where
  public : Bool
  authorized_ids : List String
deriving DecidableEq

/-- `substra.sdk.schemas.DatasetSpec`, as used by the script.  Paths are plain
strings. -/
structure DatasetSpec where
  name : String
  type : String
  data_opener : String
  description : String
  permissions : Permissions
  logs_permission : Permissions
deriving DecidableEq

/-- `substra.sdk.schemas.DataSampleSpec`, as used by the script. -/
structure DataSampleSpec where
  data_manager_keys : List String
  test_only : Bool
  path : String
deriving DecidableEq

/-- `data_path = pathlib.Path.cwd() / "tmp" / "data_mnist"` (relative to the
working directory). -/
def data_path : String := "tmp/data_mnist"

/-- `assets_directory = pathlib.Path.cwd() / "torch_fedavg_assets"`. -/
def assets_directory : String := "torch_fedavg_assets"

/-- `permissions_dataset = Permissions(public=False, authorized_ids=[ALGO_ORG_ID])`,
rebuilt identically on every loop iteration. -/
def permissions_dataset (p : Platform) : Permissions :=
  { public := false, authorized_ids := [ALGO_ORG_ID p] }

/-- The `DatasetSpec` built in the registration loop (identical for both
data-provider organizations). -/
def dataset (p : Platform) : DatasetSpec :=
  { name := "MNIST"
    type := "npy"
    data_opener := assets_directory ++ "/dataset/mnist_opener.py"
    description := assets_directory ++ "/dataset/description.md"
    permissions := permissions_dataset p
    logs_permission := permissions_dataset p }

/-- The training `DataSampleSpec` for loop index `i` and dataset key `dkey`:
`data_manager_keys=[dataset_keys[org_id]], test_only=False,
path=data_path / f"org_{i+1}" / "train"`. -/
def train_sample_spec (dkey : String) (i : ℕ) : DataSampleSpec :=
  { data_manager_keys := [dkey]
    test_only := false
    path := data_path ++ "/org_" ++ toString (i + 1) ++ "/train" }

/-- The testing `DataSampleSpec` for loop index `i` and dataset key `dkey`:
`data_manager_keys=[dataset_keys[org_id]], test_only=True,
path=data_path / f"org_{i+1}" / "test"`. -/
def test_sample_spec (dkey : String) (i : ℕ) : DataSampleSpec :=
  { data_manager_keys := [dkey]
    test_only := true
    path := data_path ++ "/org_" ++ toString (i + 1) ++ "/test" }

/-- The state built up by the registration loop: the three key dicts of the
script plus the log of every dataset and data sample registered with the
platform (tagged with the organization whose client submitted it). -/
structure RegState where
  dataset_keys : List (String × String)
  train_datasample_keys : List (String × String)
  test_datasample_keys : List (String × String)
  registered_datasets : List (String × DatasetSpec)
  registered_samples : List (String × DataSampleSpec)

/-- Initial registration state: `dataset_keys = {}` etc. -/
def RegState.init : RegState := ⟨[], [], [], [], []⟩

/-- One iteration of `for i, org_id in enumerate(DATA_PROVIDER_ORGS_ID)`:
register the dataset, then the train data sample, then the test data sample,
recording the returned keys in the dicts. -/
def regStep (p : Platform) (st : RegState) (iorg : ℕ × String) : RegState :=
  let i := iorg.1
  let org := iorg.2
  let dkey := p.datasetKey org
  { dataset_keys := dictInsert st.dataset_keys org dkey
    train_datasample_keys := dictInsert st.train_datasample_keys org (p.sampleKey org false)
    test_datasample_keys := dictInsert st.test_datasample_keys org (p.sampleKey org true)
    registered_datasets := st.registered_datasets ++ [(org, dataset p)]
    registered_samples :=
      st.registered_samples ++ [(org, train_sample_spec dkey i), (org, test_sample_spec dkey i)] }

/-- The registration loop over `enumerate(DATA_PROVIDER_ORGS_ID)`. -/
def regFinal (p : Platform) : RegState :=
  ((DATA_PROVIDER_ORGS_ID p).enum).foldl (regStep p) RegState.init

/-- `permissions_metric = Permissions(public=False,
authorized_ids=[ALGO_ORG_ID] + DATA_PROVIDER_ORGS_ID)`. -/
def permissions_metric (p : Platform) : Permissions :=
  { public := false, authorized_ids := [ALGO_ORG_ID p] ++ DATA_PROVIDER_ORGS_ID p }

/-- `metric_key = add_metric(...)`: the key the platform returns. -/
def metric_key (p : Platform) : String := p.metricKey

/-- Every `Permissions` object the script attaches to a registered asset: the
`permissions` and `logs_permission` of each registered dataset, and the
permissions of the registered metric. -/
def attachedPermissions (p : Platform) : List Permissions :=
  (regFinal p).registered_datasets.map (fun d => d.2.permissions)
    ++ (regFinal p).registered_datasets.map (fun d => d.2.logs_permission)
    ++ [permissions_metric p]

/-- `substrafl.nodes.TrainDataNode`, as used by the script. -/
structure TrainDataNode where
  organization_id : String
  data_manager_key : String
  data_sample_keys : List String
deriving DecidableEq

/-- `substrafl.nodes.TestDataNode`, as used by the script. -/
structure TestDataNode where
  organization_id : String
  data_manager_key : String
  test_data_sample_keys : List String
  metric_keys : List String
deriving DecidableEq

/-- The `train_data_nodes` list: one `TrainDataNode` per data-provider
organization, with `data_sample_keys=[train_datasample_keys[org_id]]`. -/
def train_data_nodes (p : Platform) : List TrainDataNode :=
  (DATA_PROVIDER_ORGS_ID p).map (fun org =>
    { organization_id := org
      data_manager_key := (dictLookup (regFinal p).dataset_keys org).getD ""
      data_sample_keys := [(dictLookup (regFinal p).train_datasample_keys org).getD ""] })

/-- The `test_data_nodes` list: one `TestDataNode` per data-provider
organization, with `test_data_sample_keys=[test_datasample_keys[org_id]]` and
`metric_keys=[metric_key]`. -/
def test_data_nodes (p : Platform) : List TestDataNode :=
  (DATA_PROVIDER_ORGS_ID p).map (fun org =>
    { organization_id := org
      data_manager_key := (dictLookup (regFinal p).dataset_keys org).getD ""
      test_data_sample_keys := [(dictLookup (regFinal p).test_datasample_keys org).getD ""]
      metric_keys := [metric_key p] })

/-- `substrafl.evaluation_strategy.EvaluationStrategy`, as configured by the
script. -/
structure EvaluationStrategy where
  test_data_nodes : List TestDataNode
  rounds : ℕ
deriving DecidableEq

/-- `my_eval_strategy = EvaluationStrategy(test_data_nodes=test_data_nodes, rounds=1)`:
test at the end of every round. -/
def my_eval_strategy (p : Platform) : EvaluationStrategy :=
  { test_data_nodes := test_data_nodes p, rounds := 1 }

/-- `NUM_ROUNDS = 3`. -/
def NUM_ROUNDS : ℕ := 3

/-- One federated-averaging round.  Modelled from the spec: each organization
independently performs its local updates starting from the current global
parameters, and the aggregator combines the locally updated parameter sets
into the next global parameter set.  (`execute_experiment`, `FedAvg` and the
round protocol live in the external SubstraFL SDK, not in this repository.) -/
def runRound {G L : Type} (localUpdate : G → String → L) (aggregate : List L → G)
    (orgs : List String) (g : G) : G :=
  aggregate (orgs.map (localUpdate g))

/-- Modelled from the spec: `execute_experiment(..., num_rounds=NUM_ROUNDS, ...)`
runs exactly `num_rounds` rounds — each round one local training step per
organization followed by one aggregation — and returns the trace of global
parameter sets, one per executed round.  No convergence-based stopping
condition exists: the recursion is driven only by the round counter. -/
def execute_experiment {G L : Type} (localUpdate : G → String → L) (aggregate : List L → G)
    (orgs : List String) (init : G) : ℕ → List G
  | 0 => []
  | n + 1 =>
      let g := runRound localUpdate aggregate orgs init
      g :: execute_experiment localUpdate aggregate orgs g n

/-- Total number of samples across the per-organization updates (each update is
a parameter vector paired with the organization's sample count). -/
def totalCount (updates : List (List ℚ × ℕ)) : ℕ :=
  (updates.map Prod.snd).sum

/-- Sample-count-weighted sum of the `j`-th parameter across the updates. -/
def weightedSumAt (updates : List (List ℚ × ℕ)) (j : ℕ) : ℚ :=
  (updates.map (fun u => (u.2 : ℚ) * u.1.getD j 0)).sum

/-- Parameter-vector length of the first update. -/
def paramLen (updates : List (List ℚ × ℕ)) : ℕ :=
  (updates.headD ([], 0)).1.length

/-- Modelled from the spec: the aggregation step of the `FedAvg` strategy used
by the script (`strategy = FedAvg()`, implemented in the external SubstraFL
SDK).  Given the locally updated parameter sets with their sample counts, it
produces the next global parameter set: coordinate-wise, the sum of the
parameters weighted by sample counts, divided by the total sample count. -/
def fedAvgAggregate (updates : List (List ℚ × ℕ)) : List ℚ :=
  (List.range (paramLen updates)).map (fun j => weightedSumAt updates j / (totalCount updates : ℚ))

/-- One row of `client.get_performances(compute_plan.key)`: the columns
`worker`, `round_idx`, `performance` printed by the script. -/
structure PerfRecord where
  worker : String
  round_idx : ℕ
  performance : ℚ
deriving DecidableEq

/-- Modelled from the spec: the evaluation schedule produced by an
`EvaluationStrategy` (external SubstraFL SDK) over `num_rounds` rounds.  After
every `strat.rounds`-th round, the current global model is evaluated on each
test data node, and the score is recorded against the round index and the
node's organization (worker) identifier.  `score w r` is the performance the
platform measures for worker `w` after round `r`. -/
def get_performances (score : String → ℕ → ℚ) (strat : EvaluationStrategy)
    (num_rounds : ℕ) : List PerfRecord :=
  ((List.range num_rounds).filter (fun r => (r + 1) % strat.rounds = 0)).flatMap (fun r =>
    strat.test_data_nodes.map (fun node =>
      { worker := node.organization_id
        round_idx := r + 1
        performance := score node.organization_id (r + 1) }))

/-- Argmax of one nonempty prediction row: index of the first occurrence of
the maximal value (`numpy` returns the first maximal index; the fold keeps the
current best on ties because it only switches on a strictly greater value). -/
def np_argmax_row (row : List ℚ) : ℕ :=
  (row.enum.foldl (fun best cur => if cur.2 > best.2 then cur else best) (0, row.headD 0)).1

/-- `np.argmax(y_pred, axis=1)`: the per-row argmax classes of the prediction
array.  `none` models the `ValueError: attempt to get argmax of an empty
sequence` that `numpy` raises when the class axis is empty, i.e. when a row
has no entries. -/
def np_argmax (preds : List (List ℚ)) : Option (List ℕ) :=
  if preds.any (fun row => row.isEmpty) then none
  else some (preds.map np_argmax_row)

/-- `sklearn.metrics.accuracy_score(y_true, y_pred)` on integer class labels:
the fraction of positions where the two arrays agree.  `none` models the
exceptions the library raises on arrays of inconsistent lengths and on empty
arrays (where the normalizing average is undefined). -/
def accuracy_score (y_true y_pred : List ℤ) : Option ℚ :=
  if y_true.length = y_pred.length ∧ y_true.length ≠ 0 then
    some ((((y_true.zip y_pred).countP (fun pr => pr.1 == pr.2) : ℕ) : ℚ) / (y_true.length : ℚ))
  else none

/-- The registered scoring function
`accuracy(datasamples, predictions_path) =
accuracy_score(y_true, np.argmax(y_pred, axis=1))`: labels come from
`datasamples["labels"]`, each prediction row is reduced to its argmax class;
a failure of `np.argmax` (empty class axis) propagates. -/
def accuracy (labels : List ℤ) (predictions : List (List ℚ)) : Option ℚ :=
  match np_argmax predictions with
  | none => none
  | some preds => accuracy_score labels (preds.map (fun (n : ℕ) => (n : ℤ)))

/-- `torch.FloatTensor(self.x[idx][None, ...]) / 255`: the image (a list of
pixel values) scaled into `[0,1]` by dividing each pixel by 255.  Rationals
stand for the real-valued tensor entries. -/
def scale_row (row : List ℕ) : List ℚ :=
  row.map (fun (px : ℕ) => (px : ℚ) / 255)

/-- What `TorchDataset.__getitem__` returns: only the input tensor in
inference mode, an (input, target) pair otherwise. -/
inductive Item where
  | inputOnly (x : List ℚ) : Item
  | pair (x : List ℚ) (y : List ℚ) : Item
deriving DecidableEq

/-- `torch.nn.functional.one_hot(y, num_classes)` followed by the cast to
float32: a vector of `num_classes` entries with a single `1` at position `y`.
`none` models the `RuntimeError` PyTorch raises when the class value is
negative or not smaller than `num_classes`. -/
def F_one_hot (y : ℤ) (num_classes : ℕ) : Option (List ℚ) :=
  if 0 ≤ y ∧ y < (num_classes : ℤ) then
    some ((List.range num_classes).map (fun (j : ℕ) => if (j : ℤ) = y then (1 : ℚ) else 0))
  else none

/-- The `TorchDataset` of the script: `x = datasamples["images"]`,
`y = datasamples["labels"]`, plus the `is_inference` flag. -/
structure TorchDataset where
  x : List (List ℕ)
  y : List ℤ
  is_inference : Bool

/-- `TorchDataset.__getitem__(idx)`: in inference mode return the scaled input
tensor only; otherwise return the scaled input together with the float32
one-hot encoding (10 classes) of the integer label.  `none` models the
exceptions raised on out-of-range indices and on labels outside `0..9`. -/
def TorchDataset.getitem (d : TorchDataset) (idx : ℕ) : Option Item :=
  match d.x[idx]? with
  | none => none
  | some row =>
      if d.is_inference then
        some (Item.inputOnly (scale_row row))
      else
        match d.y[idx]? with
        | none => none
        | some lab => (F_one_hot lab 10).map (fun yv => Item.pair (scale_row row) yv)

/-- `TorchDataset.__len__`. -/
def TorchDataset.len (d : TorchDataset) : ℕ := d.x.length

/-- Oracle for the script's external client calls where each call may fail:
the result type of every call is `Except ε _`, `ε` being the opaque failure
type of the external SDK.  Calls are keyed by the arguments the script passes
them (`organization_info` by client index, `add_dataset` by the submitting
organization, `add_data_sample` by organization and `test_only` flag, the
rest by the key they consume). -/
structure PlatformE (ε : Type) where
  organization_info : Fin 3 → Except ε String
  add_dataset : String → Except ε String
  add_data_sample : String → Bool → Except ε String
  add_metric : String → Except ε String
  run_experiment : String → Except ε String
  get_performances : String → Except ε String
  download_algo_files : String → Except ε Unit

/-- The script's straight-line sequence of external client calls, in source
order: read the three organization ids; for each data-provider organization
register the dataset, the train sample and the test sample; register the
metric; submit the experiment; fetch the performances; download the trained
algo files.  Every call is sequenced with plain `Except.bind` — the script
contains no `try`/`except`, so no failure is caught, transformed or
suppressed. -/
def scriptRun {ε : Type} (p : PlatformE ε) : Except ε (List String) :=
  Except.bind (p.organization_info 0) (fun _id0 =>
  Except.bind (p.organization_info 1) (fun id1 =>
  Except.bind (p.organization_info 2) (fun id2 =>
  Except.bind (p.add_dataset id1) (fun dk1 =>
  Except.bind (p.add_data_sample id1 false) (fun trk1 =>
  Except.bind (p.add_data_sample id1 true) (fun tek1 =>
  Except.bind (p.add_dataset id2) (fun dk2 =>
  Except.bind (p.add_data_sample id2 false) (fun trk2 =>
  Except.bind (p.add_data_sample id2 true) (fun tek2 =>
  Except.bind (p.add_metric _id0) (fun mk =>
  Except.bind (p.run_experiment _id0) (fun cp =>
  Except.bind (p.get_performances cp) (fun perf =>
  Except.bind (p.download_algo_files cp) (fun _ =>
  Except.ok [dk1, trk1, tek1, dk2, trk2, tek2, mk, cp, perf])))))))))))))

/-- `e` is an error actually returned by one of the platform calls of `p`. -/
def errorRaisedBy {ε : Type} (p : PlatformE ε) (e : ε) : Prop :=
  (∃ i, p.organization_info i = Except.error e)
    ∨ (∃ org, p.add_dataset org = Except.error e)
    ∨ (∃ org b, p.add_data_sample org b = Except.error e)
    ∨ (∃ org, p.add_metric org = Except.error e)
    ∨ (∃ cl, p.run_experiment cl = Except.error e)
    ∨ (∃ cp, p.get_performances cp = Except.error e)
    ∨ (∃ cp, p.download_algo_files cp = Except.error e)

/-- A concrete platform oracle with three distinct organization ids, used to
instantiate the theorems on a concrete run. -/
def samplePlatform : Platform :=
  { orgId := fun i => ["OrgA", "OrgB", "OrgC"].getD i.val ""
    datasetKey := fun org => "ds-" ++ org
    sampleKey := fun org b => (if b then "test-" else "train-") ++ org
    metricKey := "metric-1" }

/-- A concrete fallible platform oracle whose very first call
(`organization_info` of client 0) fails with error code 7. -/
def failingPlatform : PlatformE ℕ :=
  { organization_info := fun _ => Except.error 7
    add_dataset := fun _ => Except.ok "dk"
    add_data_sample := fun _ _ => Except.ok "sk"
    add_metric := fun _ => Except.ok "mk"
    run_experiment := fun _ => Except.ok "cp"
    get_performances := fun _ => Except.ok "perf"
    download_algo_files := fun _ => Except.ok () }

/-! ## Helper lemmas -/

theorem bind_ok {ε α β : Type} (a : α) (f : α → Except ε β) :
    Except.bind (Except.ok a) f = f a := rfl

theorem bind_error {ε α β : Type} (e : ε) (f : α → Except ε β) :
    Except.bind (Except.error e) f = Except.error e := rfl

theorem except_bind_eq_error {ε α β : Type} {m : Except ε α} {f : α → Except ε β} {e : ε}
    (h : Except.bind m f = Except.error e) :
    m = Except.error e ∨ ∃ a, m = Except.ok a ∧ f a = Except.error e := by
  cases m with
  | error e0 =>
      left
      cases h
      rfl
  | ok a =>
      right
      exact ⟨a, rfl, h⟩

theorem clients_eq (p : Platform) (h01 : p.orgId 0 ≠ p.orgId 1) (h02 : p.orgId 0 ≠ p.orgId 2)
    (h12 : p.orgId 1 ≠ p.orgId 2) :
    clients p = [(p.orgId 0, (0 : Fin 3)), (p.orgId 1, 1), (p.orgId 2, 2)] := by
  simp [clients, dictInsert, h01, h02, h12]

theorem ORGS_ID_eq (p : Platform) (h01 : p.orgId 0 ≠ p.orgId 1) (h02 : p.orgId 0 ≠ p.orgId 2)
    (h12 : p.orgId 1 ≠ p.orgId 2) :
    ORGS_ID p = [p.orgId 0, p.orgId 1, p.orgId 2] := by
  simp [ORGS_ID, clients_eq p h01 h02 h12]

theorem ALGO_ORG_ID_eq (p : Platform) (h01 : p.orgId 0 ≠ p.orgId 1) (h02 : p.orgId 0 ≠ p.orgId 2)
    (h12 : p.orgId 1 ≠ p.orgId 2) :
    ALGO_ORG_ID p = p.orgId 0 := by
  simp [ALGO_ORG_ID, ORGS_ID_eq p h01 h02 h12]

theorem DATA_PROVIDER_ORGS_ID_eq (p : Platform) (h01 : p.orgId 0 ≠ p.orgId 1)
    (h02 : p.orgId 0 ≠ p.orgId 2) (h12 : p.orgId 1 ≠ p.orgId 2) :
    DATA_PROVIDER_ORGS_ID p = [p.orgId 1, p.orgId 2] := by
  simp [DATA_PROVIDER_ORGS_ID, ORGS_ID_eq p h01 h02 h12]

theorem regFinal_eq (p : Platform) (h01 : p.orgId 0 ≠ p.orgId 1) (h02 : p.orgId 0 ≠ p.orgId 2)
    (h12 : p.orgId 1 ≠ p.orgId 2) :
    regFinal p =
      { dataset_keys := [(p.orgId 1, p.datasetKey (p.orgId 1)), (p.orgId 2, p.datasetKey (p.orgId 2))]
        train_datasample_keys :=
          [(p.orgId 1, p.sampleKey (p.orgId 1) false), (p.orgId 2, p.sampleKey (p.orgId 2) false)]
        test_datasample_keys :=
          [(p.orgId 1, p.sampleKey (p.orgId 1) true), (p.orgId 2, p.sampleKey (p.orgId 2) true)]
        registered_datasets := [(p.orgId 1, dataset p), (p.orgId 2, dataset p)]
        registered_samples :=
          [(p.orgId 1, train_sample_spec (p.datasetKey (p.orgId 1)) 0),
           (p.orgId 1, test_sample_spec (p.datasetKey (p.orgId 1)) 0),
           (p.orgId 2, train_sample_spec (p.datasetKey (p.orgId 2)) 1),
           (p.orgId 2, test_sample_spec (p.datasetKey (p.orgId 2)) 1)] } := by
  simp [regFinal, DATA_PROVIDER_ORGS_ID_eq p h01 h02 h12, List.enum, regStep, RegState.init,
    dictInsert, h12]

/-! ## Claim theorems -/

/-- C5: the script opens exactly one client session per organization.  The
`clients` dict has `N_CLIENTS = 3` entries exactly when the three
organization ids are pairwise distinct, and in that case it holds one entry
per organization, the first organization is the algorithm provider and the
other two are the data providers. -/
theorem one_client_session_per_organization (p : Platform) :
    ((clients p).length = N_CLIENTS ↔
      p.orgId 0 ≠ p.orgId 1 ∧ p.orgId 0 ≠ p.orgId 2 ∧ p.orgId 1 ≠ p.orgId 2)
    ∧ (p.orgId 0 ≠ p.orgId 1 → p.orgId 0 ≠ p.orgId 2 → p.orgId 1 ≠ p.orgId 2 →
        (∀ i : Fin 3, dictLookup (clients p) (p.orgId i) = some i)
        ∧ ORGS_ID p = [p.orgId 0, p.orgId 1, p.orgId 2]
        ∧ ALGO_ORG_ID p = p.orgId 0
        ∧ DATA_PROVIDER_ORGS_ID p = [p.orgId 1, p.orgId 2]) := by
  constructor
  · by_cases h01 : p.orgId 0 = p.orgId 1 <;> by_cases h02 : p.orgId 0 = p.orgId 2 <;>
      by_cases h12 : p.orgId 1 = p.orgId 2 <;>
      simp_all [clients, dictInsert, N_CLIENTS]
  · intro h01 h02 h12
    refine ⟨?_, ORGS_ID_eq p h01 h02 h12, ALGO_ORG_ID_eq p h01 h02 h12,
      DATA_PROVIDER_ORGS_ID_eq p h01 h02 h12⟩
    intro i
    fin_cases i <;> simp [clients_eq p h01 h02 h12, dictLookup, h01, h02, h12]

/-- C5 witness: on a concrete platform with three distinct organization ids,
the clients dict has three entries and the first organization serves as the
algorithm provider. -/
theorem one_client_session_per_organization_holds :
    (clients samplePlatform).length = N_CLIENTS
    ∧ ALGO_ORG_ID samplePlatform = samplePlatform.orgId 0
    ∧ DATA_PROVIDER_ORGS_ID samplePlatform = [samplePlatform.orgId 1, samplePlatform.orgId 2] := by
  have h := one_client_session_per_organization samplePlatform
  have h2 := h.2 (by decide) (by decide) (by decide)
  exact ⟨h.1.mpr ⟨by decide, by decide, by decide⟩, h2.2.2.1, h2.2.2.2⟩

/-- C6: every data sample registered by the script references an existing
dataset key — its `data_manager_keys` list holds exactly the key returned by
`add_dataset` for the same organization, and the `dataset_keys` dict indeed
records that key for that organization. -/
theorem data_samples_reference_existing_dataset (p : Platform)
    (h01 : p.orgId 0 ≠ p.orgId 1) (h02 : p.orgId 0 ≠ p.orgId 2) (h12 : p.orgId 1 ≠ p.orgId 2) :
    ∀ s ∈ (regFinal p).registered_samples,
      s.2.data_manager_keys = [p.datasetKey s.1]
      ∧ dictLookup (regFinal p).dataset_keys s.1 = some (p.datasetKey s.1) := by
  intro s hs
  rw [regFinal_eq p h01 h02 h12] at hs ⊢
  simp only [List.mem_cons, List.not_mem_nil, or_false] at hs
  rcases hs with h | h | h | h <;> subst h <;>
    simp [train_sample_spec, test_sample_spec, dictLookup, h12]

/-- C6 witness: on a concrete platform, the train data sample registered for
organization "OrgB" references exactly the dataset key registered for
"OrgB". -/
theorem data_samples_reference_existing_dataset_holds :
    (train_sample_spec "ds-OrgB" 0).data_manager_keys = [samplePlatform.datasetKey "OrgB"]
    ∧ dictLookup (regFinal samplePlatform).dataset_keys "OrgB"
        = some (samplePlatform.datasetKey "OrgB") :=
  data_samples_reference_existing_dataset samplePlatform (by decide) (by decide) (by decide)
    ("OrgB", train_sample_spec "ds-OrgB" 0) (by decide)

/-- C7: for each data-provider organization the script registers exactly two
data samples against that organization's dataset — one train sample
(`test_only = false`, path ending in `"train"`) and one test sample
(`test_only = true`, path ending in `"test"`) — and the `TrainDataNode` of
that organization uses only the train sample key while the `TestDataNode`
uses only the test sample key. -/
theorem two_samples_per_org_train_test_split (p : Platform)
    (h01 : p.orgId 0 ≠ p.orgId 1) (h02 : p.orgId 0 ≠ p.orgId 2) (h12 : p.orgId 1 ≠ p.orgId 2) :
    ∀ org ∈ DATA_PROVIDER_ORGS_ID p,
      ((regFinal p).registered_samples.countP (fun s => s.1 == org)) = 2
      ∧ ((regFinal p).registered_samples.countP (fun s => s.1 == org && !s.2.test_only)) = 1
      ∧ ((regFinal p).registered_samples.countP (fun s => s.1 == org && s.2.test_only)) = 1
      ∧ (∃ s ∈ (regFinal p).registered_samples,
          s.1 = org ∧ s.2.test_only = false ∧ ∃ pre, s.2.path = pre ++ "train")
      ∧ (∃ s ∈ (regFinal p).registered_samples,
          s.1 = org ∧ s.2.test_only = true ∧ ∃ pre, s.2.path = pre ++ "test")
      ∧ (∀ n ∈ train_data_nodes p, n.organization_id = org →
          n.data_sample_keys = [p.sampleKey org false])
      ∧ (∀ n ∈ test_data_nodes p, n.organization_id = org →
          n.test_data_sample_keys = [p.sampleKey org true]) := by
  intro org horg
  rw [DATA_PROVIDER_ORGS_ID_eq p h01 h02 h12] at horg
  simp only [List.mem_cons, List.not_mem_nil, or_false] at horg
  have hnodes : train_data_nodes p =
      [{ organization_id := p.orgId 1, data_manager_key := p.datasetKey (p.orgId 1),
         data_sample_keys := [p.sampleKey (p.orgId 1) false] },
       { organization_id := p.orgId 2, data_manager_key := p.datasetKey (p.orgId 2),
         data_sample_keys := [p.sampleKey (p.orgId 2) false] }] := by
    simp [train_data_nodes, DATA_PROVIDER_ORGS_ID_eq p h01 h02 h12, regFinal_eq p h01 h02 h12,
      dictLookup, h12]
  have htnodes : test_data_nodes p =
      [{ organization_id := p.orgId 1, data_manager_key := p.datasetKey (p.orgId 1),
         test_data_sample_keys := [p.sampleKey (p.orgId 1) true], metric_keys := [metric_key p] },
       { organization_id := p.orgId 2, data_manager_key := p.datasetKey (p.orgId 2),
         test_data_sample_keys := [p.sampleKey (p.orgId 2) true], metric_keys := [metric_key p] }] := by
    simp [test_data_nodes, DATA_PROVIDER_ORGS_ID_eq p h01 h02 h12, regFinal_eq p h01 h02 h12,
      dictLookup, h12]
  rcases horg with h | h
  · subst h
    refine ⟨?_, ?_, ?_, ?_, ?_, ?_, ?_⟩
    · rw [regFinal_eq p h01 h02 h12]
      simp [List.countP_cons, beq_iff_eq, h12.symm]
    · rw [regFinal_eq p h01 h02 h12]
      simp [List.countP_cons, beq_iff_eq, h12.symm, train_sample_spec, test_sample_spec]
    · rw [regFinal_eq p h01 h02 h12]
      simp [List.countP_cons, beq_iff_eq, h12.symm, train_sample_spec, test_sample_spec]
    · rw [regFinal_eq p h01 h02 h12]
      exact ⟨(p.orgId 1, train_sample_spec (p.datasetKey (p.orgId 1)) 0), by simp, rfl, rfl,
        "tmp/data_mnist/org_1/", by (simp [train_sample_spec, data_path]; decide)⟩
    · rw [regFinal_eq p h01 h02 h12]
      exact ⟨(p.orgId 1, test_sample_spec (p.datasetKey (p.orgId 1)) 0), by simp, rfl, rfl,
        "tmp/data_mnist/org_1/", by (simp [test_sample_spec, data_path]; decide)⟩
    · rw [hnodes]
      intro n hn heq
      simp only [List.mem_cons, List.not_mem_nil, or_false] at hn
      rcases hn with h | h <;> subst h
      · rfl
      · exact absurd heq h12.symm
    · rw [htnodes]
      intro n hn heq
      simp only [List.mem_cons, List.not_mem_nil, or_false] at hn
      rcases hn with h | h <;> subst h
      · rfl
      · exact absurd heq h12.symm
  · subst h
    refine ⟨?_, ?_, ?_, ?_, ?_, ?_, ?_⟩
    · rw [regFinal_eq p h01 h02 h12]
      simp [List.countP_cons, beq_iff_eq, h12]
    · rw [regFinal_eq p h01 h02 h12]
      simp [List.countP_cons, beq_iff_eq, h12, train_sample_spec, test_sample_spec]
    · rw [regFinal_eq p h01 h02 h12]
      simp [List.countP_cons, beq_iff_eq, h12, train_sample_spec, test_sample_spec]
    · rw [regFinal_eq p h01 h02 h12]
      exact ⟨(p.orgId 2, train_sample_spec (p.datasetKey (p.orgId 2)) 1), by simp, rfl, rfl,
        "tmp/data_mnist/org_2/", by (simp [train_sample_spec, data_path]; decide)⟩
    · rw [regFinal_eq p h01 h02 h12]
      exact ⟨(p.orgId 2, test_sample_spec (p.datasetKey (p.orgId 2)) 1), by simp, rfl, rfl,
        "tmp/data_mnist/org_2/", by (simp [test_sample_spec, data_path]; decide)⟩
    · rw [hnodes]
      intro n hn heq
      simp only [List.mem_cons, List.not_mem_nil, or_false] at hn
      rcases hn with h | h <;> subst h
      · exact absurd heq h12
      · rfl
    · rw [htnodes]
      intro n hn heq
      simp only [List.mem_cons, List.not_mem_nil, or_false] at hn
      rcases hn with h | h <;> subst h
      · exact absurd heq h12
      · rfl

/-- C7 witness: on a concrete platform, data-provider organization "OrgB"
gets exactly one train and one test data sample, and its nodes use only the
matching sample keys. -/
theorem two_samples_per_org_train_test_split_holds :
    ((regFinal samplePlatform).registered_samples.countP (fun s => s.1 == "OrgB")) = 2
    ∧ ((regFinal samplePlatform).registered_samples.countP
        (fun s => s.1 == "OrgB" && !s.2.test_only)) = 1
    ∧ ((regFinal samplePlatform).registered_samples.countP
        (fun s => s.1 == "OrgB" && s.2.test_only)) = 1
    ∧ (∃ s ∈ (regFinal samplePlatform).registered_samples,
        s.1 = "OrgB" ∧ s.2.test_only = false ∧ ∃ pre, s.2.path = pre ++ "train")
    ∧ (∃ s ∈ (regFinal samplePlatform).registered_samples,
        s.1 = "OrgB" ∧ s.2.test_only = true ∧ ∃ pre, s.2.path = pre ++ "test")
    ∧ (∀ n ∈ train_data_nodes samplePlatform, n.organization_id = "OrgB" →
        n.data_sample_keys = [samplePlatform.sampleKey "OrgB" false])
    ∧ (∀ n ∈ test_data_nodes samplePlatform, n.organization_id = "OrgB" →
        n.test_data_sample_keys = [samplePlatform.sampleKey "OrgB" true]) :=
  two_samples_per_org_train_test_split samplePlatform (by decide) (by decide) (by decide)
    "OrgB" (by decide)

/-- C10: every permission object the script attaches to a registered asset is
non-public and includes the algorithm-provider organization among its
authorized ids; dataset permissions (including log permissions) authorize
exactly the algorithm-provider organization, and the metric permissions
authorize the algorithm provider plus both data providers. -/
theorem permissions_nonpublic_include_algo_org (p : Platform)
    (h01 : p.orgId 0 ≠ p.orgId 1) (h02 : p.orgId 0 ≠ p.orgId 2) (h12 : p.orgId 1 ≠ p.orgId 2) :
    (∀ pm ∈ attachedPermissions p, pm.public = false ∧ ALGO_ORG_ID p ∈ pm.authorized_ids)
    ∧ (∀ d ∈ (regFinal p).registered_datasets,
        d.2.permissions.authorized_ids = [ALGO_ORG_ID p]
        ∧ d.2.logs_permission.authorized_ids = [ALGO_ORG_ID p])
    ∧ (permissions_metric p).authorized_ids = [p.orgId 0, p.orgId 1, p.orgId 2] := by
  refine ⟨?_, ?_, ?_⟩
  · intro pm hpm
    rw [attachedPermissions, regFinal_eq p h01 h02 h12] at hpm
    simp only [List.map_cons, List.map_nil, List.append_assoc, List.cons_append,
      List.nil_append, List.mem_cons, List.not_mem_nil, or_false] at hpm
    rcases hpm with h | h | h | h | h <;> subst h <;>
      simp [dataset, permissions_dataset, permissions_metric]
  · intro d hd
    rw [regFinal_eq p h01 h02 h12] at hd
    simp only [List.mem_cons, List.not_mem_nil, or_false] at hd
    rcases hd with h | h <;> subst h <;> simp [dataset, permissions_dataset]
  · simp [permissions_metric, ALGO_ORG_ID_eq p h01 h02 h12,
      DATA_PROVIDER_ORGS_ID_eq p h01 h02 h12]

/-- C10 witness: on a concrete platform the permission facts hold. -/
theorem permissions_nonpublic_include_algo_org_holds :
    (∀ pm ∈ attachedPermissions samplePlatform,
      pm.public = false ∧ ALGO_ORG_ID samplePlatform ∈ pm.authorized_ids)
    ∧ (∀ d ∈ (regFinal samplePlatform).registered_datasets,
        d.2.permissions.authorized_ids = [ALGO_ORG_ID samplePlatform]
        ∧ d.2.logs_permission.authorized_ids = [ALGO_ORG_ID samplePlatform])
    ∧ (permissions_metric samplePlatform).authorized_ids
        = [samplePlatform.orgId 0, samplePlatform.orgId 1, samplePlatform.orgId 2] :=
  permissions_nonpublic_include_algo_org samplePlatform (by decide) (by decide) (by decide)

theorem test_data_nodes_eq (p : Platform) (h01 : p.orgId 0 ≠ p.orgId 1)
    (h02 : p.orgId 0 ≠ p.orgId 2) (h12 : p.orgId 1 ≠ p.orgId 2) :
    test_data_nodes p =
      [{ organization_id := p.orgId 1, data_manager_key := p.datasetKey (p.orgId 1),
         test_data_sample_keys := [p.sampleKey (p.orgId 1) true], metric_keys := [metric_key p] },
       { organization_id := p.orgId 2, data_manager_key := p.datasetKey (p.orgId 2),
         test_data_sample_keys := [p.sampleKey (p.orgId 2) true], metric_keys := [metric_key p] }] := by
  simp [test_data_nodes, DATA_PROVIDER_ORGS_ID_eq p h01 h02 h12, regFinal_eq p h01 h02 h12,
    dictLookup, h12]

/-- C4: with `EvaluationStrategy(test_data_nodes=test_data_nodes, rounds=1)`
the model is evaluated on every data-provider organization's test data after
every one of the `NUM_ROUNDS` rounds, and each performance record carries a
round index (between 1 and `NUM_ROUNDS`) and the worker (organization)
identifier of one of the data providers. -/
theorem evaluation_every_round_per_org (p : Platform) (score : String → ℕ → ℚ)
    (h01 : p.orgId 0 ≠ p.orgId 1) (h02 : p.orgId 0 ≠ p.orgId 2) (h12 : p.orgId 1 ≠ p.orgId 2) :
    (my_eval_strategy p).rounds = 1
    ∧ (get_performances score (my_eval_strategy p) NUM_ROUNDS).length
        = NUM_ROUNDS * (DATA_PROVIDER_ORGS_ID p).length
    ∧ (∀ r, 1 ≤ r → r ≤ NUM_ROUNDS → ∀ org ∈ DATA_PROVIDER_ORGS_ID p,
        ∃ rec ∈ get_performances score (my_eval_strategy p) NUM_ROUNDS,
          rec.worker = org ∧ rec.round_idx = r)
    ∧ (∀ rec ∈ get_performances score (my_eval_strategy p) NUM_ROUNDS,
        rec.worker ∈ DATA_PROVIDER_ORGS_ID p
        ∧ 1 ≤ rec.round_idx ∧ rec.round_idx ≤ NUM_ROUNDS) := by
  have hrecs : get_performances score (my_eval_strategy p) NUM_ROUNDS =
      [{ worker := p.orgId 1, round_idx := 1, performance := score (p.orgId 1) 1 },
       { worker := p.orgId 2, round_idx := 1, performance := score (p.orgId 2) 1 },
       { worker := p.orgId 1, round_idx := 2, performance := score (p.orgId 1) 2 },
       { worker := p.orgId 2, round_idx := 2, performance := score (p.orgId 2) 2 },
       { worker := p.orgId 1, round_idx := 3, performance := score (p.orgId 1) 3 },
       { worker := p.orgId 2, round_idx := 3, performance := score (p.orgId 2) 3 }] := by
    rw [get_performances, my_eval_strategy, test_data_nodes_eq p h01 h02 h12]
    simp [NUM_ROUNDS, Nat.mod_one, List.range_succ]
  refine ⟨rfl, ?_, ?_, ?_⟩
  · rw [hrecs, DATA_PROVIDER_ORGS_ID_eq p h01 h02 h12]
    rfl
  · intro r hr1 hr3 org horg
    rw [DATA_PROVIDER_ORGS_ID_eq p h01 h02 h12] at horg
    simp only [List.mem_cons, List.not_mem_nil, or_false] at horg
    refine ⟨{ worker := org, round_idx := r, performance := score org r }, ?_, rfl, rfl⟩
    rw [hrecs]
    simp only [NUM_ROUNDS] at hr3
    interval_cases r <;> rcases horg with h | h <;> subst h <;> simp
  · intro rec hrec
    rw [hrecs] at hrec
    rw [DATA_PROVIDER_ORGS_ID_eq p h01 h02 h12]
    simp only [List.mem_cons, List.not_mem_nil, or_false] at hrec
    rcases hrec with h | h | h | h | h | h <;> subst h <;> simp [NUM_ROUNDS]

/-- C4 witness: on a concrete platform with a constant scoring oracle, the
strategy evaluates every round and records a score for organization 1 at
round 2. -/
theorem evaluation_every_round_per_org_holds :
    (my_eval_strategy samplePlatform).rounds = 1
    ∧ (get_performances (fun _ _ => (1 : ℚ) / 2) (my_eval_strategy samplePlatform)
        NUM_ROUNDS).length = NUM_ROUNDS * (DATA_PROVIDER_ORGS_ID samplePlatform).length
    ∧ (∃ rec ∈ get_performances (fun _ _ => (1 : ℚ) / 2) (my_eval_strategy samplePlatform)
        NUM_ROUNDS, rec.worker = samplePlatform.orgId 1 ∧ rec.round_idx = 2) := by
  have h := evaluation_every_round_per_org samplePlatform (fun _ _ => (1 : ℚ) / 2)
    (by decide) (by decide) (by decide)
  exact ⟨h.1, h.2.1, h.2.2.1 2 (by decide) (by decide) (samplePlatform.orgId 1) (by decide)⟩

/-- C2: the experiment runs for the fixed `NUM_ROUNDS = 3` number of rounds —
each round a local training step per organization followed by one aggregation
— and then terminates: whatever the local-update and aggregation functions
and the data, the trace of executed rounds has length exactly `num_rounds`,
so no convergence-based stopping condition exists. -/
theorem experiment_terminates_after_fixed_rounds :
    NUM_ROUNDS = 3
    ∧ ∀ (G L : Type) (localUpdate : G → String → L) (aggregate : List L → G)
        (orgs : List String) (init : G) (num_rounds : ℕ),
        (execute_experiment localUpdate aggregate orgs init num_rounds).length = num_rounds := by
  refine ⟨rfl, ?_⟩
  intro G L localUpdate aggregate orgs init num_rounds
  induction num_rounds generalizing init with
  | zero => rfl
  | succ n ih => simp [execute_experiment, ih]

theorem list_sum_map_div {α : Type} (l : List α) (f : α → ℚ) (c : ℚ) :
    (l.map (fun a => f a / c)).sum = (l.map f).sum / c := by
  induction l with
  | nil => simp
  | cons a t ih => simp [ih, add_div]

/-- C8: the FedAvg aggregation step computes the next global parameter set as
the weighted average of the locally updated parameter sets, weighted by each
organization's sample count: coordinate `j` of the aggregate equals the sum
over organizations of `(nᵢ / Σₖ nₖ) · θᵢⱼ`, and those weights sum to 1 (with
equal counts they are uniform). -/
theorem fedavg_aggregation_weighted_average (updates : List (List ℚ × ℕ))
    (h : 0 < totalCount updates) :
    (fedAvgAggregate updates).length = paramLen updates
    ∧ (∀ j, j < paramLen updates →
        (fedAvgAggregate updates).getD j 0 =
          (updates.map (fun u => ((u.2 : ℚ) / (totalCount updates : ℚ)) * u.1.getD j 0)).sum)
    ∧ (updates.map (fun u => (u.2 : ℚ) / (totalCount updates : ℚ))).sum = 1 := by
  have hT : ((totalCount updates : ℚ)) ≠ 0 := (Nat.cast_pos.mpr h).ne'
  refine ⟨by simp [fedAvgAggregate], ?_, ?_⟩
  · intro j hj
    have h1 : (fedAvgAggregate updates).getD j 0
        = weightedSumAt updates j / (totalCount updates : ℚ) := by
      rw [fedAvgAggregate, List.getD_eq_getElem?_getD, List.getElem?_map,
        List.getElem?_range hj]
      rfl
    rw [h1, weightedSumAt, ← list_sum_map_div]
    simp only [div_mul_eq_mul_div]
  · rw [list_sum_map_div]
    have hsum : (updates.map (fun u => ((u.2 : ℕ) : ℚ))).sum = ((totalCount updates : ℕ) : ℚ) := by
      rw [totalCount, Nat.cast_list_sum, List.map_map]
      rfl
    rw [hsum, div_self hT]

/-- C8 witness: aggregating the updates `([1,3], 1)` and `([3,1], 3)` (sample
counts 1 and 3, total 4) yields the weighted average, and the weights sum
to 1. -/
theorem fedavg_aggregation_weighted_average_holds :
    (fedAvgAggregate [([1, 3], 1), ([3, 1], 3)]).length = paramLen [([1, 3], 1), ([3, 1], 3)]
    ∧ (fedAvgAggregate [([1, 3], 1), ([3, 1], 3)]).getD 0 0
        = ([([1, 3], 1), ([3, 1], 3)].map
            (fun u => ((u.2 : ℚ) / (totalCount [([1, 3], 1), ([3, 1], 3)] : ℚ)) * u.1.getD 0 0)).sum
    ∧ ([([1, 3], 1), ([3, 1], 3)].map
        (fun u => (u.2 : ℚ) / (totalCount [([1, 3], 1), ([3, 1], 3)] : ℚ))).sum = 1 := by
  have h := fedavg_aggregation_weighted_average [([1, 3], 1), ([3, 1], 3)] (by decide)
  exact ⟨h.1, h.2.1 0 (by decide), h.2.2⟩

/-- C1: on aligned (equal-length, non-empty) label/prediction arrays whose
prediction rows each carry at least one class score, the registered scoring
function `accuracy` — argmax of each prediction row compared to the label via
`accuracy_score` — returns a value in the closed interval `[0, 1]`. -/
theorem accuracy_returns_value_in_unit_interval (labels : List ℤ) (predictions : List (List ℚ))
    (hlen : labels.length = predictions.length) (hne : labels ≠ [])
    (hrows : ∀ row ∈ predictions, row ≠ []) :
    ∃ q, accuracy labels predictions = some q ∧ 0 ≤ q ∧ q ≤ 1 := by
  have hany : predictions.any (fun row => row.isEmpty) = false := by
    by_contra hc
    rw [Bool.not_eq_false, List.any_eq_true] at hc
    obtain ⟨row, hrow, hemp⟩ := hc
    exact hrows row hrow (by simpa using hemp)
  have hsome : np_argmax predictions = some (predictions.map np_argmax_row) := by
    simp [np_argmax, hany]
  have hplen : labels.length
      = ((predictions.map np_argmax_row).map (fun (n : ℕ) => (n : ℤ))).length := by
    simpa using hlen
  have hn0 : labels.length ≠ 0 := by simpa [List.length_eq_zero] using hne
  simp only [accuracy, hsome]
  rw [accuracy_score, if_pos ⟨hplen, hn0⟩]
  refine ⟨_, rfl, div_nonneg (Nat.cast_nonneg _) (Nat.cast_nonneg _), ?_⟩
  have hc : ((labels.zip ((predictions.map np_argmax_row).map (fun (n : ℕ) => (n : ℤ)))).countP
      (fun pr => pr.1 == pr.2)) ≤ labels.length := by
    calc ((labels.zip ((predictions.map np_argmax_row).map (fun (n : ℕ) => (n : ℤ)))).countP
        (fun pr => pr.1 == pr.2))
        ≤ (labels.zip ((predictions.map np_argmax_row).map (fun (n : ℕ) => (n : ℤ)))).length :=
          List.countP_le_length _
      _ ≤ labels.length := by
          rw [List.length_zip]
          exact min_le_left _ _
  exact div_le_one_of_le₀ (by exact_mod_cast hc) (Nat.cast_nonneg _)

/-- C1 witness: on two samples with labels `[0, 1]` and nonempty prediction
rows whose argmaxes are `0` and `1`, `accuracy` returns a value in `[0, 1]`. -/
theorem accuracy_returns_value_in_unit_interval_holds :
    ∃ q, accuracy [0, 1] [[(9 : ℚ)/10, 1/10], [(2 : ℚ)/10, 8/10]] = some q ∧ 0 ≤ q ∧ q ≤ 1 :=
  accuracy_returns_value_in_unit_interval [0, 1] [[(9 : ℚ)/10, 1/10], [(2 : ℚ)/10, 8/10]]
    (by decide) (by decide) (by decide)

/-- C1 counterexample: the scoring pipeline can fail to return any value in
`[0,1]` on degenerate aligned inputs.  On the empty pair (equal sample count
0) averaging zero per-sample scores is undefined in the external library; on
one label with an empty prediction row (equal, nonzero sample count)
`np.argmax` has no value on the empty class axis.  Both are modelled by
`none`. -/
theorem accuracy_degenerate_inputs_return_no_value :
    (accuracy [] [] = none)
    ∧ (accuracy [0] [[]] = none)
    ∧ (¬∃ q, accuracy ([] : List ℤ) ([] : List (List ℚ)) = some q ∧ 0 ≤ q ∧ q ≤ 1)
    ∧ (¬∃ q, accuracy [0] [[]] = some q ∧ 0 ≤ q ∧ q ≤ 1) := by
  refine ⟨rfl, rfl, ?_, ?_⟩ <;>
    (rintro ⟨q, hq, -⟩; simp [accuracy, np_argmax, accuracy_score] at hq)

theorem scale_row_spec (row : List ℕ) :
    (scale_row row).length = row.length
    ∧ ∀ j, j < row.length → (scale_row row).getD j 0 = ((row.getD j 0 : ℚ)) / 255 := by
  refine ⟨by simp [scale_row], ?_⟩
  intro j hj
  rw [scale_row, List.getD_eq_getElem?_getD, List.getElem?_map, List.getElem?_eq_getElem hj,
    List.getD_eq_getElem?_getD, List.getElem?_eq_getElem hj]
  rfl

theorem F_one_hot_spec (y : ℤ) (h0 : 0 ≤ y) (h10 : y < 10) :
    ∃ ys, F_one_hot y 10 = some ys ∧ ys.length = 10
      ∧ ∀ j, j < 10 → ys.getD j 0 = if (j : ℤ) = y then 1 else 0 := by
  have hsome : F_one_hot y 10
      = some ((List.range 10).map (fun (j : ℕ) => if (j : ℤ) = y then (1 : ℚ) else 0)) := by
    rw [F_one_hot, if_pos]
    exact ⟨h0, by exact_mod_cast h10⟩
  refine ⟨_, hsome, by simp, ?_⟩
  intro j hj
  rw [List.getD_eq_getElem?_getD, List.getElem?_map, List.getElem?_range hj]
  rfl

/-- C9: for an in-bounds index, `TorchDataset.__getitem__` returns only the
input tensor scaled by `1/255` when `is_inference` is true; when it is false
it returns the scaled input paired with a 10-entry float one-hot target whose
single `1` sits at the integer label's position; labels outside `0..9` make
the call fail. -/
theorem torch_dataset_getitem_spec (d : TorchDataset) (idx : ℕ)
    (hx : idx < d.x.length) (hy : idx < d.y.length) :
    (d.is_inference = true →
      ∃ xs, d.getitem idx = some (Item.inputOnly xs)
        ∧ xs.length = (d.x.getD idx []).length
        ∧ ∀ j, j < (d.x.getD idx []).length →
            xs.getD j 0 = ((d.x.getD idx []).getD j 0 : ℚ) / 255)
    ∧ (d.is_inference = false → 0 ≤ d.y.getD idx 0 → d.y.getD idx 0 < 10 →
      ∃ xs ys, d.getitem idx = some (Item.pair xs ys)
        ∧ xs.length = (d.x.getD idx []).length
        ∧ (∀ j, j < (d.x.getD idx []).length →
            xs.getD j 0 = ((d.x.getD idx []).getD j 0 : ℚ) / 255)
        ∧ ys.length = 10
        ∧ ∀ j, j < 10 → ys.getD j 0 = if (j : ℤ) = d.y.getD idx 0 then 1 else 0)
    ∧ (d.is_inference = false → (d.y.getD idx 0 < 0 ∨ 10 ≤ d.y.getD idx 0) →
      d.getitem idx = none) := by
  have hgx : d.x.getD idx [] = d.x[idx] := by
    simp [List.getD_eq_getElem?_getD, List.getElem?_eq_getElem hx]
  have hgy : d.y.getD idx 0 = d.y[idx] := by
    simp [List.getD_eq_getElem?_getD, List.getElem?_eq_getElem hy]
  have hxq : d.x[idx]? = some (d.x.getD idx []) := by
    rw [List.getElem?_eq_getElem hx, hgx]
  have hyq : d.y[idx]? = some (d.y.getD idx 0) := by
    rw [List.getElem?_eq_getElem hy, hgy]
  refine ⟨?_, ?_, ?_⟩
  · intro hinf
    refine ⟨scale_row (d.x.getD idx []), ?_, (scale_row_spec _).1, (scale_row_spec _).2⟩
    simp only [TorchDataset.getitem, hxq, hinf, if_true]
  · intro hinf h0 h10
    obtain ⟨ys, hys, hyslen, hysval⟩ := F_one_hot_spec (d.y.getD idx 0) h0 h10
    refine ⟨scale_row (d.x.getD idx []), ys, ?_, (scale_row_spec _).1, (scale_row_spec _).2,
      hyslen, hysval⟩
    simp only [TorchDataset.getitem, hxq, hyq, hinf, Bool.false_eq_true, if_false, hys]
    rfl
  · intro hinf hout
    have hnone : F_one_hot (d.y.getD idx 0) 10 = none := by
      rw [F_one_hot, if_neg]
      rintro ⟨ha, hb⟩
      rcases hout with h | h
      · exact absurd ha (not_le.mpr h)
      · have : d.y.getD idx 0 < 10 := by exact_mod_cast hb
        exact absurd this (not_lt.mpr h)
    simp only [TorchDataset.getitem, hxq, hyq, hinf, Bool.false_eq_true, if_false, hnone]
    rfl

/-- C9 witness: on a two-pixel image `[0, 255]` with label `3` in training
mode, `__getitem__` returns the scaled input paired with the one-hot vector
of class 3. -/
theorem torch_dataset_getitem_spec_holds :
    ∃ xs ys, TorchDataset.getitem ⟨[[0, 255]], [3], false⟩ 0 = some (Item.pair xs ys)
      ∧ xs.length = ((([[0, 255]] : List (List ℕ)).getD 0 []).length)
      ∧ (∀ j, j < (([[0, 255]] : List (List ℕ)).getD 0 []).length →
          xs.getD j 0 = ((([[0, 255]] : List (List ℕ)).getD 0 []).getD j 0 : ℚ) / 255)
      ∧ ys.length = 10
      ∧ ∀ j, j < 10 → ys.getD j 0 = if (j : ℤ) = (([3] : List ℤ).getD 0 0) then 1 else 0 := by
  have h := torch_dataset_getitem_spec ⟨[[0, 255]], [3], false⟩ 0 (by decide) (by decide)
  exact h.2.1 rfl (by decide) (by decide)

/-- C3: no custom error handling is authored in the script.  Every error the
script's run ends with is exactly an error returned by one of the external
client calls (never transformed), and a failure of a call — shown here for
the first call and, with all twelve earlier calls succeeding, for the last
call — propagates to the script's caller unmodified (never caught or
suppressed). -/
theorem failures_propagate_unmodified {ε : Type} (p : PlatformE ε) :
    (∀ e, scriptRun p = Except.error e → errorRaisedBy p e)
    ∧ (∀ e, p.organization_info 0 = Except.error e → scriptRun p = Except.error e)
    ∧ (∀ e id0 id1 id2 dk1 trk1 tek1 dk2 trk2 tek2 mk cp perf,
        p.organization_info 0 = Except.ok id0 → p.organization_info 1 = Except.ok id1 →
        p.organization_info 2 = Except.ok id2 → p.add_dataset id1 = Except.ok dk1 →
        p.add_data_sample id1 false = Except.ok trk1 →
        p.add_data_sample id1 true = Except.ok tek1 →
        p.add_dataset id2 = Except.ok dk2 → p.add_data_sample id2 false = Except.ok trk2 →
        p.add_data_sample id2 true = Except.ok tek2 → p.add_metric id0 = Except.ok mk →
        p.run_experiment id0 = Except.ok cp → p.get_performances cp = Except.ok perf →
        p.download_algo_files cp = Except.error e → scriptRun p = Except.error e) := by
  refine ⟨?_, ?_, ?_⟩
  · intro e h
    unfold scriptRun at h
    rcases except_bind_eq_error h with h | ⟨id0, h0, h⟩
    · exact Or.inl ⟨0, h⟩
    rcases except_bind_eq_error h with h | ⟨id1, h1, h⟩
    · exact Or.inl ⟨1, h⟩
    rcases except_bind_eq_error h with h | ⟨id2, h2, h⟩
    · exact Or.inl ⟨2, h⟩
    rcases except_bind_eq_error h with h | ⟨dk1, h3, h⟩
    · exact Or.inr (Or.inl ⟨id1, h⟩)
    rcases except_bind_eq_error h with h | ⟨trk1, h4, h⟩
    · exact Or.inr (Or.inr (Or.inl ⟨id1, false, h⟩))
    rcases except_bind_eq_error h with h | ⟨tek1, h5, h⟩
    · exact Or.inr (Or.inr (Or.inl ⟨id1, true, h⟩))
    rcases except_bind_eq_error h with h | ⟨dk2, h6, h⟩
    · exact Or.inr (Or.inl ⟨id2, h⟩)
    rcases except_bind_eq_error h with h | ⟨trk2, h7, h⟩
    · exact Or.inr (Or.inr (Or.inl ⟨id2, false, h⟩))
    rcases except_bind_eq_error h with h | ⟨tek2, h8, h⟩
    · exact Or.inr (Or.inr (Or.inl ⟨id2, true, h⟩))
    rcases except_bind_eq_error h with h | ⟨mk, h9, h⟩
    · exact Or.inr (Or.inr (Or.inr (Or.inl ⟨id0, h⟩)))
    rcases except_bind_eq_error h with h | ⟨cp, h10, h⟩
    · exact Or.inr (Or.inr (Or.inr (Or.inr (Or.inl ⟨id0, h⟩))))
    rcases except_bind_eq_error h with h | ⟨perf, h11, h⟩
    · exact Or.inr (Or.inr (Or.inr (Or.inr (Or.inr (Or.inl ⟨cp, h⟩)))))
    rcases except_bind_eq_error h with h | ⟨u, h12, h⟩
    · exact Or.inr (Or.inr (Or.inr (Or.inr (Or.inr (Or.inr ⟨cp, h⟩)))))
    simp at h
  · intro e h0
    unfold scriptRun
    rw [h0]
    rfl
  · intro e id0 id1 id2 dk1 trk1 tek1 dk2 trk2 tek2 mk cp perf
      h0 h1 h2 h3 h4 h5 h6 h7 h8 h9 h10 h11 h12
    unfold scriptRun
    simp only [h0, h1, h2, h3, h4, h5, h6, h7, h8, h9, h10, h11, h12, bind_ok, bind_error]

/-- C3 witness: on a concrete fallible platform whose first client call fails
with error code 7, the whole script run fails with exactly that error. -/
theorem failures_propagate_unmodified_holds :
    scriptRun failingPlatform = Except.error 7 :=
  (failures_propagate_unmodified failingPlatform).2.1 7 rfl

end FedAvgScript
